import Mathlib

/-!
Shallow embedding of the repository helloworlddan/run: the lazily initialized
client registry of clients.go (global `clients` map, `Client`, `LazyClient`,
`UseClient`, `ListClientNames`, `ResetClients`, `isPointer`) and the server
lifecycle orchestrator `ListenAndServe` of service.go.

Go dynamic values are modelled by a small universe `GoVal` of tagged values with
their runtime types `GoType`; the `any` slot of a registry entry holds a `GoVal`
(the Go nil interface is `GoVal.vNilAny`).  The generic type parameter `T` of
`UseClient[T any](name string, client T)` is represented by the dynamic type of
the `client` argument (Go infers `T` from that argument, and callers pass a
typed nil pointer of the requested type).
-/

/-- Runtime types of stored Go values: basic kinds, pointer types and named
struct types such as http.Client. -/
inductive GoType where
  | tInt : GoType
  | tString : GoType
  | tBool : GoType
  | tPtr : GoType → GoType
  | tStruct : String → GoType
deriving DecidableEq

/-- Dynamic Go values as stored in an `any` slot: a value carries its runtime
type; pointers are non-nil (pointee type and address) or typed nil; `vNilAny`
is the nil interface value. -/
inductive GoVal where
  | vInt : Int → GoVal
  | vString : String → GoVal
  | vBool : Bool → GoVal
  | vPtr : GoType → Nat → GoVal
  | vNilPtr : GoType → GoVal
  | vNilAny : GoVal
deriving DecidableEq

/-- Name of a Go type as printed by the %T verb of fmt. -/
def goTypeName : GoType → String
  | GoType.tInt => "int"
  | GoType.tString => "string"
  | GoType.tBool => "bool"
  | GoType.tPtr t => "*" ++ goTypeName t
  | GoType.tStruct s => s

/-- Dynamic type of a value; the nil interface has none. -/
def GoVal.typeOf? : GoVal → Option GoType
  | GoVal.vInt _ => some GoType.tInt
  | GoVal.vString _ => some GoType.tString
  | GoVal.vBool _ => some GoType.tBool
  | GoVal.vPtr t _ => some (GoType.tPtr t)
  | GoVal.vNilPtr t => some (GoType.tPtr t)
  | GoVal.vNilAny => none

/-- What %T prints for a value (the nil interface prints as the angle-bracketed
nil marker). -/
def GoVal.typeName : GoVal → String
  | GoVal.vInt _ => "int"
  | GoVal.vString _ => "string"
  | GoVal.vBool _ => "bool"
  | GoVal.vPtr t _ => "*" ++ goTypeName t
  | GoVal.vNilPtr t => "*" ++ goTypeName t
  | GoVal.vNilAny => "<nil>"

/-- Embeds clients.go isPointer: reflect.ValueOf(a).Kind() == reflect.Ptr.
The nil interface has reflect kind Invalid, hence is not a pointer. -/
def isPointer : GoVal → Bool
  | GoVal.vPtr _ _ => true
  | GoVal.vNilPtr _ => true
  | _ => false

/-- Effect of a lazy initialization func: per the doc of LazyClient, the init
func should call Client() with the initialized client, so an initializer is
modelled by the sequence of Client(name, value) registrations it performs. -/
abbrev InitBody := List (String × GoVal)

/-- Embeds the struct lazyClient of clients.go.  The sync.Once held by pointer
is modelled by its done flag `onceFired`; `id` models the identity of the
heap-allocated lazyClient object (entries are stored as pointers in Go, and
Once.Do mutates the object the caller read, even if the map slot was replaced
meanwhile).  A nil lazyInitialize func is `none`. -/
structure lazyClient where
  clientPtr : GoVal
  lazyInit : Option InitBody
  onceFired : Bool
  initialized : Bool
  id : Nat
deriving DecidableEq

/-- The global `clients` map.  Go allocates each lazyClient fresh, so `nextId`
supplies the identity of the next allocation; `ensureInitClients` (nil map to
empty map) is the identity here because the empty registry plays the nil map. -/
structure Registry where
  entries : List (String × lazyClient)
  nextId : Nat
deriving DecidableEq

/-- Embeds ResetClients of clients.go: deletes all previously configured
clients. -/
def ResetClients : Registry := ⟨[], 0⟩

/-- Go map assignment clients[name] = e: replace in place or add. -/
def setEntry (name : String) (e : lazyClient) :
    List (String × lazyClient) → List (String × lazyClient)
  | [] => [(name, e)]
  | (n, x) :: rest =>
      if n = name then (name, e) :: rest else (n, x) :: setEntry name e rest

/-- Go map read clients[name]. -/
def lookupEntry (reg : Registry) (name : String) : Option lazyClient :=
  (reg.entries.find? (fun p => p.1 == name)).map Prod.snd

/-- Embeds Client of clients.go: registers an already initialized client
(fresh sync.Once, nil initializer, initialized = true). -/
def Client (name : String) (client : GoVal) (reg : Registry) : Registry :=
  ⟨setEntry name ⟨client, none, false, true, reg.nextId⟩ reg.entries, reg.nextId + 1⟩

/-- Embeds LazyClient of clients.go: registers an uninitialized client name
with an initialization func (nil clientPtr, initialized = false). -/
def LazyClient (name : String) (init : Option InitBody) (reg : Registry) : Registry :=
  ⟨setEntry name ⟨GoVal.vNilAny, init, false, false, reg.nextId⟩ reg.entries, reg.nextId + 1⟩

/-- Runs an initializer body: the sequence of Client calls it performs. -/
def runInit (body : InitBody) (reg : Registry) : Registry :=
  body.foldl (fun r p => Client p.1 p.2 r) reg

/-- Sets the done flag of the sync.Once belonging to the lazyClient object with
identity i, wherever that object still sits in the map (Once.Do mutates the
object read before the initializer ran, which may have been replaced). -/
def markFired (i : Nat) (reg : Registry) : Registry :=
  ⟨reg.entries.map (fun p =>
      if p.2.id = i then (p.1, ⟨p.2.clientPtr, p.2.lazyInit, true, p.2.initialized, p.2.id⟩)
      else p),
   reg.nextId⟩

/-- The error returns of UseClient, one constructor per fmt.Errorf site:
notPointer carries what %T printed for the client argument, castFail what %T
printed for the zero value of the requested type. -/
inductive UseErr where
  | notPointer : String → UseErr
  | notFound : String → UseErr
  | cannotInit : String → UseErr
  | castFail : String → UseErr
deriving DecidableEq

/-- Outcome of one UseClient call: a value and nil error, a non-nil error, or a
runtime panic (calling a nil function inside sync.Once.Do). -/
inductive UseRes where
  | ok : GoVal → UseRes
  | err : UseErr → UseRes
  | panics : UseRes
deriving DecidableEq

/-- Result state of a UseClient call: the registry afterwards, the returned
outcome, and how many initializer bodies were executed during the call. -/
structure UseOut where
  reg : Registry
  res : UseRes
  initRuns : Nat
deriving DecidableEq

/-- Tail of UseClient after the once step (clients.go lines 176 to 189):
refresh the entry from the map, then the checked type assertion
lc.clientPtr.(T), where T is the dynamic type of the client argument. -/
def afterOnce (reg : Registry) (name : String) (client : GoVal) (runs : Nat) : UseOut :=
  match lookupEntry reg name with
  | none => ⟨reg, UseRes.err (UseErr.notFound name), runs⟩
  | some lc =>
      match client.typeOf? with
      | none => ⟨reg, UseRes.err (UseErr.castFail client.typeName), runs⟩
      | some t =>
          if lc.clientPtr.typeOf? = some t then ⟨reg, UseRes.ok lc.clientPtr, runs⟩
          else ⟨reg, UseRes.err (UseErr.castFail client.typeName), runs⟩

/-- Embeds UseClient of clients.go (lines 157 to 190), step by step:
pointer check on the client argument; map lookup; the uninitializable check
(not initialized and nil initializer); then lc.clientOnce.Do(lc.lazyInitialize)
unconditionally - if the Once has not fired and the initializer func is nil,
Go calls a nil function and panics (the deferred store still sets the done
flag); otherwise the body runs and the done flag of the object lc points to is
set; finally refresh and checked cast. -/
def UseClient (reg : Registry) (name : String) (client : GoVal) : UseOut :=
  if !isPointer client then
    ⟨reg, UseRes.err (UseErr.notPointer client.typeName), 0⟩
  else
    match lookupEntry reg name with
    | none => ⟨reg, UseRes.err (UseErr.notFound name), 0⟩
    | some lc =>
        if !lc.initialized && lc.lazyInit.isNone then
          ⟨reg, UseRes.err (UseErr.cannotInit name), 0⟩
        else
          if lc.onceFired then afterOnce reg name client 0
          else
            match lc.lazyInit with
            | none => ⟨markFired lc.id reg, UseRes.panics, 0⟩
            | some body => afterOnce (markFired lc.id (runInit body reg)) name client 1

/-- Lexicographic at-most comparison of char lists, mirroring how Go compares
strings in slices.Sort (byte-wise; on the ASCII keys used here byte order and
codepoint order agree).  Structural, so it evaluates by kernel reduction. -/
def charListLe : List Char → List Char → Bool
  | [], _ => true
  | _ :: _, [] => false
  | a :: as, b :: bs =>
      if a < b then true
      else if b < a then false
      else charListLe as bs

/-- Go string comparison a <= b, used by slices.Sort on []string. -/
def goStrLe (a b : String) : Bool := charListLe a.data b.data

/-- Embeds ListClientNames of clients.go: collect the keys of the clients map
and sort them with slices.Sort (ascending). -/
def ListClientNames (reg : Registry) : List String :=
  List.insertionSort (fun a b => goStrLe a b = true) (reg.entries.map Prod.fst)

theorem charListLe_iff : ∀ as bs : List Char,
    charListLe as bs = true ↔ ¬ List.Lex (· < ·) bs as
  | [], bs => iff_of_true rfl (List.Lex.not_nil_right _ _)
  | a :: as, [] => iff_of_false (by simp [charListLe]) (not_not_intro List.Lex.nil)
  | a :: as, b :: bs => by
      rcases lt_trichotomy a b with h | h | h
      · refine iff_of_true (by simp [charListLe, h]) ?_
        intro hl
        cases hl with
        | rel h' => exact absurd h (asymm h')
        | cons h' => exact absurd rfl (ne_of_gt h)
      · subst h
        have ih := charListLe_iff as bs
        have hle : charListLe (a :: as) (a :: bs) = charListLe as bs := by
          simp [charListLe]
        rw [hle, ih]
        constructor
        · intro hn hl
          cases hl with
          | rel h' => exact absurd h' (lt_irrefl a)
          | cons h' => exact hn h'
        · intro hn hl
          exact hn (List.Lex.cons hl)
      · refine iff_of_false (by simp [charListLe, h, asymm h]) ?_
        intro hn
        exact hn (List.Lex.rel h)

theorem goStrLe_iff (a b : String) : goStrLe a b = true ↔ a ≤ b := by
  have h := charListLe_iff a.data b.data
  rw [← not_lt, String.lt_iff_toList_lt]
  exact h

/-!
Embedding of the lifecycle orchestrator, service.go ListenAndServe (lines 156
to 191).  A goroutine runs `s.server.ListenAndServe()` and sends its error on
errChan unless it is http.ErrServerClosed; the main flow blocks in a select on
errChan and sigChan.  The race between the two channels is the one source of
nondeterminism, so the embedding takes the event won by the select as input,
together with the result of the bounded `s.server.Shutdown(ctx)` drain.  The
second output component counts invocations of the caller-supplied shutdown
hook `s.shutdown` (installed by ShutdownFunc, a no-op func by default).
-/

/-- Error string of http.ErrServerClosed. -/
def httpErrServerClosed : String := "http: Server closed"

/-- Error string of context.DeadlineExceeded, what server.Shutdown returns
when the graceful drain exceeds its ten second budget. -/
def ctxDeadlineExceeded : String := "context deadline exceeded"

/-- Embeds the serve goroutine body (service.go lines 163 to 168): the serve
loop result is forwarded to errChan unless it is http.ErrServerClosed. -/
def errChanSends (serveErr : String) : Option String :=
  if serveErr = httpErrServerClosed then none else some serveErr

/-- The termination signals trapped by signal.Notify. -/
inductive Sig where
  | SIGTERM : Sig
  | SIGINT : Sig
deriving DecidableEq

/-- The event won by the select (service.go lines 170 to 175): a serve error
read from errChan, or a trapped signal read from sigChan. -/
inductive SelEvent where
  | errChan : String → SelEvent
  | sigChan : Sig → SelEvent
deriving DecidableEq

/-- How one ListenAndServe call ends: a normal return carrying the returned
error value, or process termination through s.Fatal (log.Fatalf). -/
inductive LasOutcome where
  | ret : Option String → LasOutcome
  | fatalExit : String → LasOutcome
deriving DecidableEq

/-- Embeds ListenAndServe of service.go: on a serve error, return it at once
(no hook); on a signal, drain via server.Shutdown with the ten second context;
a drain error goes to s.Fatal, which terminates the process before the hook;
otherwise run the user-supplied shutdown hook once and return nil. -/
def ListenAndServe (ev : SelEvent) (drainErr : Option String) : LasOutcome × Nat :=
  match ev with
  | SelEvent.errChan e => (LasOutcome.ret (some e), 0)
  | SelEvent.sigChan _ =>
      match drainErr with
      | some e => (LasOutcome.fatalExit e, 0)
      | none => (LasOutcome.ret none, 1)

/-- Fixed graceful-shutdown budget of service.go line 178, in seconds. -/
def shutdownTimeoutSeconds : Nat := 10

/-!
Theorems settling the claims, in claim order.
-/

/-- C1: the claim says that Client(n, v) followed by UseClient(n, typed nil
pointer of the type of v) returns v with no error and never invokes an
initializer, the once step being a no-op for an initialized entry.  The code
instead reaches clientOnce.Do(lc.lazyInitialize) with a nil initializer func
and panics on a nil function call: evaluated at the input of the repository
test TestUseClient (an eagerly registered http client), the call panics with
zero initializer runs instead of returning the stored value. -/
theorem claimC1_eager_use_panics :
    (UseClient (Client "http" (GoVal.vPtr (GoType.tStruct "http.Client") 1) ResetClients)
        "http" (GoVal.vNilPtr (GoType.tStruct "http.Client"))).res = UseRes.panics
    ∧ (UseClient (Client "http" (GoVal.vPtr (GoType.tStruct "http.Client") 1) ResetClients)
        "http" (GoVal.vNilPtr (GoType.tStruct "http.Client"))).initRuns = 0 := by
  decide

/-- C2 counterexample: on a drain timeout after a termination signal, the
claim expects the timeout to be returned as an error with the hook having run;
the code instead ends in s.Fatal (process exit) with the hook never invoked. -/
theorem claimC2_cex :
    ListenAndServe (SelEvent.sigChan Sig.SIGTERM) (some ctxDeadlineExceeded)
      = (LasOutcome.fatalExit ctxDeadlineExceeded, 0)
    ∧ (ListenAndServe (SelEvent.sigChan Sig.SIGTERM) (some ctxDeadlineExceeded)).1
        ≠ LasOutcome.ret (some ctxDeadlineExceeded)
    ∧ (ListenAndServe (SelEvent.sigChan Sig.SIGTERM) (some ctxDeadlineExceeded)).2 ≠ 1 := by
  decide

/-- C2 amended: if the graceful drain exceeds the deadline during orchestrated
shutdown, ListenAndServe hands the drain error to Fatal, which terminates the
process: the timeout is not returned as an error and the caller-supplied
shutdown hook is never invoked. -/
theorem claimC2_drain_timeout_is_fatal (sig : Sig) (e : String) :
    ListenAndServe (SelEvent.sigChan sig) (some e) = (LasOutcome.fatalExit e, 0) := by
  rfl

/-- C2 witness: the amended statement at a concrete signal and drain error. -/
theorem claimC2_witness :
    ListenAndServe (SelEvent.sigChan Sig.SIGINT) (some ctxDeadlineExceeded)
      = (LasOutcome.fatalExit ctxDeadlineExceeded, 0) :=
  claimC2_drain_timeout_is_fatal Sig.SIGINT ctxDeadlineExceeded

/-- C3 counterexample: for an unregistered name and a non-pointer type hint,
UseClient reports the expected-pointer error, not the not-found error, so the
claim fails when quantified over every requested type. -/
theorem claimC3_cex :
    (UseClient ResetClients "x" (GoVal.vInt 0)).res = UseRes.err (UseErr.notPointer "int")
    ∧ (UseClient ResetClients "x" (GoVal.vInt 0)).res ≠ UseRes.err (UseErr.notFound "x") := by
  decide

/-- C3 amended: for every name that is not registered and every requested type
of pointer kind, UseClient returns the not-found error, leaving the registry
unchanged and running no initializer. -/
theorem claimC3_unregistered_notFound (reg : Registry) (name : String) (client : GoVal)
    (h1 : isPointer client = true) (h2 : lookupEntry reg name = none) :
    UseClient reg name client = ⟨reg, UseRes.err (UseErr.notFound name), 0⟩ := by
  simp [UseClient, h1, h2]

/-- C3 witness: the amended statement at a concrete unregistered name and a
concrete pointer hint. -/
theorem claimC3_witness :
    isPointer (GoVal.vNilPtr GoType.tInt) = true
    ∧ lookupEntry ResetClients "x" = none
    ∧ UseClient ResetClients "x" (GoVal.vNilPtr GoType.tInt)
        = ⟨ResetClients, UseRes.err (UseErr.notFound "x"), 0⟩ :=
  ⟨by decide, by decide,
    claimC3_unregistered_notFound ResetClients "x" (GoVal.vNilPtr GoType.tInt)
      (by decide) (by decide)⟩

/-- C4: the claim says that after Client("x", 42) a lookup at string type
returns the cast error.  The code never reaches the type assertion for an
eagerly registered entry: with a pointer hint (*string) it panics inside
clientOnce.Do on the nil initializer func, and with a plain string hint it
returns the expected-pointer error, so the cast error is returned on neither
path. -/
theorem claimC4_mismatched_use_panics :
    (UseClient (Client "x" (GoVal.vInt 42) ResetClients) "x"
        (GoVal.vNilPtr GoType.tString)).res = UseRes.panics
    ∧ (UseClient (Client "x" (GoVal.vInt 42) ResetClients) "x"
        (GoVal.vString "")).res = UseRes.err (UseErr.notPointer "string") := by
  decide

/-- C5: when the select is won by a termination signal and the drain completes
within the deadline, ListenAndServe runs the caller-supplied shutdown hook
exactly once and returns a nil error. -/
theorem claimC5_signal_graceful_shutdown (sig : Sig) :
    ListenAndServe (SelEvent.sigChan sig) none = (LasOutcome.ret none, 1) := by
  rfl

/-- C5 witness: the statement at SIGTERM. -/
theorem claimC5_witness :
    ListenAndServe (SelEvent.sigChan Sig.SIGTERM) none = (LasOutcome.ret none, 1) :=
  claimC5_signal_graceful_shutdown Sig.SIGTERM

/-- C6: if the serve loop fails with anything but http.ErrServerClosed, the
goroutine forwards the error to errChan, and ListenAndServe returns exactly
that error with the shutdown hook never invoked, whatever the drain would have
done. -/
theorem claimC6_serve_error_returned (e : String) (d : Option String)
    (h : e ≠ httpErrServerClosed) :
    errChanSends e = some e
    ∧ ListenAndServe (SelEvent.errChan e) d = (LasOutcome.ret (some e), 0) := by
  constructor
  · simp [errChanSends, h]
  · rfl

/-- C6 witness: the statement at a concrete bind failure. -/
theorem claimC6_witness :
    "listen tcp :8080: bind: address already in use" ≠ httpErrServerClosed
    ∧ errChanSends "listen tcp :8080: bind: address already in use"
        = some "listen tcp :8080: bind: address already in use"
    ∧ ListenAndServe (SelEvent.errChan "listen tcp :8080: bind: address already in use") none
        = (LasOutcome.ret (some "listen tcp :8080: bind: address already in use"), 0) := by
  refine ⟨by decide, ?_⟩
  exact claimC6_serve_error_returned "listen tcp :8080: bind: address already in use" none
    (by decide)

/-- C7: ListClientNames always returns the registered names in ascending
lexical order; it lists exactly the keys of the clients map; after registering
names a and b over a reset registry it returns exactly [a, b]; and on the
reset registry it returns the empty list. -/
theorem claimC7_listClientNames (reg : Registry) (va vb : GoVal) :
    (ListClientNames reg).Sorted (fun a b => a ≤ b)
    ∧ (∀ n, n ∈ ListClientNames reg ↔ n ∈ reg.entries.map Prod.fst)
    ∧ ListClientNames (Client "b" vb (Client "a" va ResetClients)) = ["a", "b"]
    ∧ ListClientNames ResetClients = [] := by
  refine ⟨?_, ?_, ?_, rfl⟩
  · haveI htot : IsTotal String (fun a b => goStrLe a b = true) :=
      ⟨fun a b => by
        rcases le_total a b with h | h
        · exact Or.inl ((goStrLe_iff a b).mpr h)
        · exact Or.inr ((goStrLe_iff b a).mpr h)⟩
    haveI htrans : IsTrans String (fun a b => goStrLe a b = true) :=
      ⟨fun a b c hab hbc =>
        (goStrLe_iff a c).mpr (le_trans ((goStrLe_iff a b).mp hab) ((goStrLe_iff b c).mp hbc))⟩
    have hs := List.sorted_insertionSort (fun a b => goStrLe a b = true)
      (reg.entries.map Prod.fst)
    exact hs.imp (fun h => (goStrLe_iff _ _).mp h)
  · intro n
    exact List.mem_insertionSort _
  · simp [ListClientNames, Client, ResetClients, setEntry]
    decide

/-- C7 witness: the statement at a concrete registry and concrete values. -/
theorem claimC7_witness :
    (ListClientNames (Client "x" (GoVal.vInt 0) ResetClients)).Sorted (fun a b => a ≤ b)
    ∧ (∀ n, n ∈ ListClientNames (Client "x" (GoVal.vInt 0) ResetClients)
        ↔ n ∈ (Client "x" (GoVal.vInt 0) ResetClients).entries.map Prod.fst)
    ∧ ListClientNames (Client "b" (GoVal.vInt 2) (Client "a" (GoVal.vInt 1) ResetClients))
        = ["a", "b"]
    ∧ ListClientNames ResetClients = [] :=
  claimC7_listClientNames (Client "x" (GoVal.vInt 0) ResetClients) (GoVal.vInt 1) (GoVal.vInt 2)

/-- C8: for every registered entry that is not initialized and has no
initializer func, UseClient fails with the cannot-initialize error for any
pointer hint, leaving the registry unchanged and running no initializer. -/
theorem claimC8_uninitializable (reg : Registry) (name : String) (client : GoVal)
    (lc : lazyClient) (h1 : lookupEntry reg name = some lc)
    (h2 : lc.initialized = false) (h3 : lc.lazyInit = none)
    (h4 : isPointer client = true) :
    UseClient reg name client = ⟨reg, UseRes.err (UseErr.cannotInit name), 0⟩ := by
  simp [UseClient, h1, h2, h3, h4]

/-- C8 witness: the statement at a lazy registration whose init func is nil. -/
theorem claimC8_witness :
    lookupEntry (LazyClient "db" none ResetClients) "db"
        = some ⟨GoVal.vNilAny, none, false, false, 0⟩
    ∧ UseClient (LazyClient "db" none ResetClients) "db" (GoVal.vNilPtr (GoType.tStruct "sql.DB"))
        = ⟨LazyClient "db" none ResetClients, UseRes.err (UseErr.cannotInit "db"), 0⟩ :=
  ⟨by decide,
    claimC8_uninitializable (LazyClient "db" none ResetClients) "db"
      (GoVal.vNilPtr (GoType.tStruct "sql.DB")) ⟨GoVal.vNilAny, none, false, false, 0⟩
      (by decide) (by decide) (by decide) (by decide)⟩

/-- C9: the claim says a lazy initializer runs exactly once and every caller
of UseClient for that name receives the same realized value.  The code breaks
this even in the serialized schedule: the first call runs the initializer,
whose Client registration replaces the entry with a fresh sync.Once and a nil
initializer func, so the second call panics inside clientOnce.Do on a nil
function call instead of returning the realized value. -/
theorem claimC9_second_use_panics :
    (UseClient (LazyClient "fake" (some [("fake", GoVal.vPtr (GoType.tStruct "fakeClient") 7)])
        ResetClients) "fake" (GoVal.vNilPtr (GoType.tStruct "fakeClient"))).res
      = UseRes.ok (GoVal.vPtr (GoType.tStruct "fakeClient") 7)
    ∧ (UseClient (LazyClient "fake" (some [("fake", GoVal.vPtr (GoType.tStruct "fakeClient") 7)])
        ResetClients) "fake" (GoVal.vNilPtr (GoType.tStruct "fakeClient"))).initRuns = 1
    ∧ (UseClient
        (UseClient (LazyClient "fake" (some [("fake", GoVal.vPtr (GoType.tStruct "fakeClient") 7)])
          ResetClients) "fake" (GoVal.vNilPtr (GoType.tStruct "fakeClient"))).reg
        "fake" (GoVal.vNilPtr (GoType.tStruct "fakeClient"))).res = UseRes.panics := by
  decide

/-- C10: whenever the client argument is not of pointer kind, UseClient
returns the expected-pointer error built from what %T prints for the argument,
leaves the registry unchanged, and runs no initializer; the registry is never
consulted, so an unregistered name still does not yield the not-found error. -/
theorem claimC10_nonpointer_hint (reg : Registry) (name : String) (client : GoVal)
    (h : isPointer client = false) :
    UseClient reg name client = ⟨reg, UseRes.err (UseErr.notPointer client.typeName), 0⟩ := by
  simp [UseClient, h]

/-- C10 witness: the statement at a concrete non-pointer hint on the empty
registry, where the result is the expected-pointer error rather than the
not-found error. -/
theorem claimC10_witness :
    isPointer (GoVal.vInt 5) = false
    ∧ UseClient ResetClients "nope" (GoVal.vInt 5)
        = ⟨ResetClients, UseRes.err (UseErr.notPointer "int"), 0⟩ :=
  ⟨by decide, claimC10_nonpointer_hint ResetClients "nope" (GoVal.vInt 5) (by decide)⟩
